import Mathlib

/-!
Shallow embedding of the MUSICM8 voice bot (src/main.rs): the event-loop
command dispatcher, the four command handlers (join, play, leave, stop) and
the per-guild track-handle registry (the `trackdata` field of `StateRef`).

External collaborators (the HTTP reply sink, the standby follow-up waiter,
the songbird voice-session manager and the ytdl audio resolver) are modelled
by an environment recording the outcome of each external call a single
handler invocation makes.  Each handler is translated control-flow
faithfully from the Rust source; it returns the list of replies that were
actually sent, the list of voice-manager calls made, the resulting registry
and the task outcome (normal return, early `?` return, or a panic from an
`unwrap` on `None`).
-/

namespace MusicM8

abbrev GuildId := Nat
abbrev ChannelId := Nat
abbrev UserId := Nat
abbrev TrackHandle := Nat

structure Author where
  id : UserId
  name : String
deriving DecidableEq

/-- The fields of a twilight `Message` the program reads. -/
structure Message where
  channel_id : ChannelId
  author : Author
  guild_id : Option GuildId
  content : String
deriving DecidableEq

/-- Metadata of a resolved audio source: `input.metadata.track` and
`input.metadata.artist`, both optional. -/
structure Song where
  track : Option String
  artist : Option String
deriving DecidableEq

/-- Outcome of one spawned command task: normal return, early return with an
error (the handlers return `Result` and use the question-mark operator), or
a panic from an `unwrap` on `None`. -/
inductive Outcome where
  | ok
  | err (e : String)
  | panicked (e : String)
deriving DecidableEq

def Outcome.isPanicked : Outcome → Bool
  | Outcome.panicked _ => true
  | _ => false

/-- The `trackdata` map of `StateRef`: guild id to current track handle with
unique keys (`HashMap<GuildId, TrackHandle>`), modelled as an association
list. -/
abbrev Registry := List (GuildId × TrackHandle)

/-- `HashMap::insert`: replaces any existing binding of the key. -/
def insertReg (r : Registry) (g : GuildId) (hd : TrackHandle) : Registry :=
  (g, hd) :: r.filter (fun p => p.1 != g)

/-- Number of bindings a registry holds for one guild. -/
def countKey : Registry → GuildId → Nat
  | [], _ => 0
  | p :: rest, g => (if p.1 = g then 1 else 0) + countKey rest g

/-- `HashMap::get` on the modelled registry. -/
def lookupReg : Registry → GuildId → Option TrackHandle
  | [], _ => none
  | p :: rest, g => if p.1 = g then some p.2 else lookupReg rest g

/-- HashMap key uniqueness: at most one binding per guild. -/
abbrev keysNodup (r : Registry) : Prop := (r.map Prod.fst).Nodup

def isDigitChar (c : Char) : Bool := 48 ≤ c.toNat && c.toNat ≤ 57

def digitsVal (l : List Char) : Nat :=
  l.foldl (fun a c => a * 10 + (c.toNat - 48)) 0

/-- Rust `str::parse::<u64>`: an optional leading plus sign, then one or
more ASCII digits, and the value must fit in 64 bits. -/
def parseU64 (s : String) : Option Nat :=
  let l :=
    match s.data with
    | c :: rest => if c.toNat = 43 then rest else c :: rest
    | [] => []
  if !l.isEmpty && l.all isDigitChar then
    if digitsVal l < 2 ^ 64 then some (digitsVal l) else none
  else none

/-- Text before the first space character, the whole text when it has no
space: Rust `content.splitn(2, ' ').next()`. -/
def firstTokenAux : List Char → List Char
  | [] => []
  | c :: cs => if c == ' ' then [] else c :: firstTokenAux cs

def firstToken (s : String) : String := String.mk (firstTokenAux s.data)

def beginsList : List Char → List Char → Bool
  | [], _ => true
  | _ :: _, [] => false
  | a :: as, b :: bs => a == b && beginsList as bs

/-- Rust `str::starts_with`: `strBegins s p` holds when `p` begins `s`. -/
def strBegins (s p : String) : Bool := beginsList p.data s.data

/-- Whitespace as Rust `char::is_whitespace` on the ASCII range the
messages here use. -/
def isWs (c : Char) : Bool :=
  c.toNat = 32 || c.toNat = 9 || c.toNat = 10 || c.toNat = 13

/-- Rust `str::trim`. -/
def trimStr (s : String) : String :=
  String.mk (((s.data.dropWhile isWs).reverse.dropWhile isWs).reverse)

/-- Rust `Debug` escaping for the characters the strings here can hold. -/
def escChar (c : Char) : List Char :=
  if c.toNat = 34 then [Char.ofNat 92, Char.ofNat 34]
  else if c.toNat = 92 then [Char.ofNat 92, Char.ofNat 92]
  else if c.toNat = 10 then [Char.ofNat 92, 'n']
  else if c.toNat = 9 then [Char.ofNat 92, 't']
  else if c.toNat = 13 then [Char.ofNat 92, 'r']
  else [c]

/-- Rust `format!("{:?}", s)` for a string: quoted and escaped. -/
def rustDebug (s : String) : String :=
  String.mk (Char.ofNat 34 :: (s.data.map escChar).flatten ++ [Char.ofNat 34])

/-- An inbound gateway event, as far as the dispatcher inspects it. -/
inductive Event where
  | messageCreate (m : Message)
  | other

/-- The four recognized command variants. -/
inductive Cmd where
  | join
  | play
  | leave
  | stop
deriving DecidableEq

/-- The `match` on the leading token in `main`. -/
def tokenCmd : String → Option Cmd
  | "j/join" => some Cmd.join
  | "j/play" => some Cmd.play
  | "j/leave" => some Cmd.leave
  | "j/stop" => some Cmd.stop
  | _ => none

/-- The event-loop filter and dispatch of `main`: only message-creation
events with an owning guild and the `j/` marker reach the token match;
`none` is the loop's `continue` (no handler spawned). -/
def dispatch : Event → Option Cmd
  | Event.messageCreate m =>
    if m.guild_id.isNone || !strBegins m.content "j/" then none
    else tokenCmd (firstToken m.content)
  | Event.other => none

def firstTokenWsAux : List Char → List Char
  | [] => []
  | c :: cs => if isWs c then [] else c :: firstTokenWsAux cs

/-- Modelled from the spec: the dispatcher as the spec sentence words it,
splitting the message text at the first whitespace character rather than at
the first space character; kept for comparison with `dispatch`. -/
def dispatchFromSpec : Event → Option Cmd
  | Event.messageCreate m =>
    if m.guild_id.isNone || !strBegins m.content "j/" then none
    else tokenCmd (String.mk (firstTokenWsAux m.content.data))
  | Event.other => none

/-- A call a handler makes on the songbird voice-session manager. -/
inductive VoiceCall where
  | joinCall (g : GuildId) (ch : Nat)
  | leaveCall (g : GuildId)
  | playSource (g : GuildId)
  | stopCall (g : GuildId)
deriving DecidableEq

/-- Outcomes of the external calls one handler invocation makes: whether
the first and the second `create_message` round trips succeed, what the
standby follow-up wait returns, what `songbird::ytdl` returns for a url,
whether `songbird.get` finds a call for a guild, the track handle
`play_source` hands back, and the results of the voice-manager `join`,
`leave` and `Call::stop` calls.  `stopResult` is never read, mirroring the
`let _ = call.stop()` discard in the source. -/
structure Env where
  send1Ok : Bool
  send2Ok : Bool
  standby : Except String Message
  ytdl : String → Except String Song
  hasCall : GuildId → Bool
  newHandle : TrackHandle
  joinResult : Except String Unit
  leaveResult : Except String Unit
  stopResult : Except String Unit

/-- What one handler invocation did: replies whose send round trip
completed, voice-manager calls made, the registry it left behind, and the
task outcome. -/
structure RunResult where
  sent : List String
  voice : List VoiceCall
  registry : Registry
  outcome : Outcome
deriving DecidableEq

def joinPrompt : String := "What\x27s the channel ID you want me to join?"

def playPrompt : String := "What\x27s the URL of the audio to play?"

/-- The `join` handler.  Note the rebinding of `msg`: after the prompt, the
guild check and the voice-manager call use the standby reply, not the
original message, and the reply's text is parsed before the guild check. -/
def join (_msg : Message) (env : Env) (reg : Registry) : RunResult :=
  if env.send1Ok then
    match env.standby with
    | Except.error e => ⟨[joinPrompt], [], reg, Outcome.err e⟩
    | Except.ok reply =>
      match parseU64 reply.content with
      | none => ⟨[joinPrompt], [], reg, Outcome.err "invalid digit found in string"⟩
      | some channelId =>
        match reply.guild_id with
        | none =>
          ⟨[joinPrompt], [], reg, Outcome.err "Can\x27t join a non-guild channel."⟩
        | some guildId =>
          let content :=
            match env.joinResult with
            | Except.ok _ => "Joined <#" ++ toString channelId ++ ">!"
            | Except.error e =>
              "Failed to join <#" ++ toString channelId ++ ">! Why: " ++ e
          if env.send2Ok then
            ⟨[joinPrompt, content], [VoiceCall.joinCall guildId channelId], reg, Outcome.ok⟩
          else
            ⟨[joinPrompt], [VoiceCall.joinCall guildId channelId], reg,
              Outcome.err "transport"⟩
  else ⟨[], [], reg, Outcome.err "transport"⟩

/-- The `leave` handler: unconditional guild unwrap on the triggering
message, then `songbird.leave` behind `?` (a failure returns before any
reply), then the success reply. -/
def leave (msg : Message) (env : Env) (reg : Registry) : RunResult :=
  match msg.guild_id with
  | none => ⟨[], [], reg, Outcome.panicked "called Option::unwrap on a None value"⟩
  | some g =>
    match env.leaveResult with
    | Except.error e => ⟨[], [VoiceCall.leaveCall g], reg, Outcome.err e⟩
    | Except.ok _ =>
      if env.send1Ok then
        ⟨["Left the channel"], [VoiceCall.leaveCall g], reg, Outcome.ok⟩
      else ⟨[], [VoiceCall.leaveCall g], reg, Outcome.err "transport"⟩

/-- The reply announcing the resolved track, with Rust `{:?}` formatting
and the `<UNKNOWN>` placeholders. -/
def playingMsg (s : Song) : String :=
  "Playing **" ++ rustDebug (s.track.getD "<UNKNOWN>") ++ "** by **" ++
    rustDebug (s.artist.getD "<UNKNOWN>") ++ "**"

/-- The `play` handler.  `msg` is rebound to the standby reply, whose guild
is unwrapped unconditionally; the resolver runs on the trimmed reply text;
the announcement is sent before the session lookup, and only a found
session leads to `play_source` and the sole registry insert. -/
def play (_msg : Message) (env : Env) (reg : Registry) : RunResult :=
  if env.send1Ok then
    match env.standby with
    | Except.error e => ⟨[playPrompt], [], reg, Outcome.err e⟩
    | Except.ok reply =>
      match reply.guild_id with
      | none =>
        ⟨[playPrompt], [], reg, Outcome.panicked "called Option::unwrap on a None value"⟩
      | some guildId =>
        match env.ytdl (trimStr reply.content) with
        | Except.error e =>
          if env.send2Ok then ⟨[playPrompt, "error " ++ e], [], reg, Outcome.ok⟩
          else ⟨[playPrompt], [], reg, Outcome.err "transport"⟩
        | Except.ok song =>
          if env.send2Ok then
            if env.hasCall guildId then
              ⟨[playPrompt, playingMsg song], [VoiceCall.playSource guildId],
                insertReg reg guildId env.newHandle, Outcome.ok⟩
            else ⟨[playPrompt, playingMsg song], [], reg, Outcome.ok⟩
          else ⟨[playPrompt], [], reg, Outcome.err "transport"⟩
  else ⟨[], [], reg, Outcome.err "transport"⟩

/-- The `stop` handler: unconditional guild unwrap on the triggering
message, a `Call::stop` whose result is discarded when a session exists,
then the unconditional success reply. -/
def stop (msg : Message) (env : Env) (reg : Registry) : RunResult :=
  match msg.guild_id with
  | none => ⟨[], [], reg, Outcome.panicked "called Option::unwrap on a None value"⟩
  | some g =>
    let voice := if env.hasCall g then [VoiceCall.stopCall g] else []
    if env.send1Ok then ⟨["Stopped the track"], voice, reg, Outcome.ok⟩
    else ⟨[], voice, reg, Outcome.err "transport"⟩

/-- One spawned handler task, selected by the dispatched command. -/
def runCommand : Cmd → Message → Env → Registry → RunResult
  | Cmd.join, m, e, r => join m e r
  | Cmd.play, m, e, r => play m e r
  | Cmd.leave, m, e, r => leave m e r
  | Cmd.stop, m, e, r => stop m e r

/-! Concrete sample messages, environments and registries used to evaluate
the handlers at specific inputs. -/

def userU : Author := ⟨2, "u"⟩

def msgJoin : Message := ⟨1, userU, some 3, "j/join"⟩

def msgPlay : Message := ⟨1, userU, some 3, "j/play"⟩

def msgLeave : Message := ⟨1, userU, some 3, "j/leave"⟩

def msgStop : Message := ⟨1, userU, some 3, "j/stop"⟩

def replyNum : Message := ⟨1, userU, some 3, "123"⟩

def replyNumNoGuild : Message := ⟨1, userU, none, "123"⟩

def replyNumGuild2 : Message := ⟨1, userU, some 2, "123"⟩

def replyUrl : Message := ⟨1, userU, some 3, "https://example.com/track"⟩

def replyAbc : Message := ⟨1, userU, some 3, "abc"⟩

def songSample : Song := ⟨some "Song", some "Artist"⟩

def regSample : Registry := [(3, 7), (4, 9)]

/-- Environment where every external call succeeds and no voice session
exists; the standby reply and resolver are unused placeholders. -/
def envBase : Env :=
  ⟨true, true, Except.error "no reply", fun _ => Except.error "resolve",
    fun _ => false, 0, Except.ok (), Except.ok (), Except.ok ()⟩

/-- Like `envBase` but the voice-manager leave fails. -/
def envLeaveFail : Env :=
  ⟨true, true, Except.error "no reply", fun _ => Except.error "resolve",
    fun _ => false, 0, Except.ok (), Except.error "NoCall", Except.ok ()⟩

/-- Standby yields a non-numeric reply. -/
def envReplyAbc : Env :=
  ⟨true, true, Except.ok replyAbc, fun _ => Except.error "resolve",
    fun _ => false, 0, Except.ok (), Except.ok (), Except.ok ()⟩

/-- Standby yields a numeric reply that has no owning guild. -/
def envReplyNoGuild : Env :=
  ⟨true, true, Except.ok replyNumNoGuild, fun _ => Except.error "resolve",
    fun _ => false, 0, Except.ok (), Except.ok (), Except.ok ()⟩

/-- Standby yields a numeric reply owned by guild 2. -/
def envReplyGuild2 : Env :=
  ⟨true, true, Except.ok replyNumGuild2, fun _ => Except.error "resolve",
    fun _ => false, 0, Except.ok (), Except.ok (), Except.ok ()⟩

/-- Standby yields a url reply and the resolver fails. -/
def envResolveFail : Env :=
  ⟨true, true, Except.ok replyUrl, fun _ => Except.error "bad url",
    fun _ => false, 0, Except.ok (), Except.ok (), Except.ok ()⟩

/-- Standby yields a url reply, the resolver succeeds, no voice session. -/
def envResolveNoSession : Env :=
  ⟨true, true, Except.ok replyUrl, fun _ => Except.ok songSample,
    fun _ => false, 0, Except.ok (), Except.ok (), Except.ok ()⟩

/-- Standby yields a url reply, the resolver succeeds, guild 3 has a voice
session, and `play_source` hands back handle 42. -/
def envResolveSession3 : Env :=
  ⟨true, true, Except.ok replyUrl, fun _ => Except.ok songSample,
    fun g => g == 3, 42, Except.ok (), Except.ok (), Except.ok ()⟩

/-! Helper lemmas about the registry. -/

theorem countKey_filter_ne (r : Registry) (g : GuildId) :
    countKey (List.filter (fun p => p.1 != g) r) g = 0 := by
  induction r with
  | nil => rfl
  | cons p rest ih =>
    rw [List.filter_cons]
    by_cases h : p.1 = g
    · simp [h, ih]
    · simp [h, countKey, ih]

theorem countKey_insertReg (r : Registry) (g : GuildId) (hd : TrackHandle) :
    countKey (insertReg r g hd) g = 1 := by
  simp [insertReg, countKey, countKey_filter_ne]

theorem lookupReg_insertReg (r : Registry) (g : GuildId) (hd : TrackHandle) :
    lookupReg (insertReg r g hd) g = some hd := by
  simp [insertReg, lookupReg]

theorem keysNodup_insertReg (r : Registry) (g : GuildId) (hd : TrackHandle)
    (hr : keysNodup r) : keysNodup (insertReg r g hd) := by
  unfold keysNodup insertReg
  rw [List.map_cons]
  refine List.nodup_cons.mpr ⟨?_, ?_⟩
  · intro hmem
    rcases List.mem_map.mp hmem with ⟨p, hpmem, hpf⟩
    have hne := List.of_mem_filter hpmem
    rw [bne_iff_ne] at hne
    exact hne hpf
  · exact List.Nodup.sublist ((List.filter_sublist r).map Prod.fst) hr

theorem join_registry_eq (m : Message) (e : Env) (r : Registry) :
    (join m e r).registry = r := by
  unfold join
  repeat' split
  all_goals rfl

theorem leave_registry_eq (m : Message) (e : Env) (r : Registry) :
    (leave m e r).registry = r := by
  unfold leave
  repeat' split
  all_goals rfl

theorem stop_registry_eq (m : Message) (e : Env) (r : Registry) :
    (stop m e r).registry = r := by
  unfold stop
  repeat' split
  all_goals rfl

theorem play_registry_cases (m : Message) (e : Env) (r : Registry) :
    (play m e r).registry = r ∨
      ∃ g, (play m e r).registry = insertReg r g e.newHandle := by
  unfold play
  repeat' split
  all_goals first
    | exact Or.inl rfl
    | exact Or.inr ⟨_, rfl⟩

/-- C1: every handler other than play returns the registry unchanged; play
either returns it unchanged or performs the single `HashMap::insert`, which
replaces any prior binding and leaves exactly one binding for that guild,
and key uniqueness is preserved throughout. -/
theorem c1_registry_sole_mutation (c : Cmd) (m : Message) (e : Env) (r : Registry)
    (hr : keysNodup r) :
    keysNodup (runCommand c m e r).registry ∧
      ((runCommand c m e r).registry = r ∨
        ∃ g, c = Cmd.play ∧
          (runCommand c m e r).registry = insertReg r g e.newHandle ∧
          countKey (runCommand c m e r).registry g = 1 ∧
          lookupReg (runCommand c m e r).registry g = some e.newHandle) := by
  cases c with
  | join =>
    simp only [runCommand]
    rw [join_registry_eq m e r]
    exact ⟨hr, Or.inl rfl⟩
  | play =>
    simp only [runCommand]
    rcases play_registry_cases m e r with h | ⟨g, h⟩
    · rw [h]; exact ⟨hr, Or.inl rfl⟩
    · rw [h]
      exact ⟨keysNodup_insertReg r g e.newHandle hr,
        Or.inr ⟨g, by trivial, rfl, countKey_insertReg r g e.newHandle,
          lookupReg_insertReg r g e.newHandle⟩⟩
  | leave =>
    simp only [runCommand]
    rw [leave_registry_eq m e r]
    exact ⟨hr, Or.inl rfl⟩
  | stop =>
    simp only [runCommand]
    rw [stop_registry_eq m e r]
    exact ⟨hr, Or.inl rfl⟩

/-- C1 witness: a play invocation that resolves and finds a session for
guild 3, run on a registry that already binds guild 3, replaces that
binding and keeps the keys unique. -/
theorem c1_registry_sole_mutation_witness :
    keysNodup regSample ∧
      (keysNodup (runCommand Cmd.play msgPlay envResolveSession3 regSample).registry ∧
        ((runCommand Cmd.play msgPlay envResolveSession3 regSample).registry = regSample ∨
          ∃ g, Cmd.play = Cmd.play ∧
            (runCommand Cmd.play msgPlay envResolveSession3 regSample).registry =
              insertReg regSample g envResolveSession3.newHandle ∧
            countKey (runCommand Cmd.play msgPlay envResolveSession3 regSample).registry g
              = 1 ∧
            lookupReg (runCommand Cmd.play msgPlay envResolveSession3 regSample).registry g
              = some envResolveSession3.newHandle)) :=
  ⟨by decide, c1_registry_sole_mutation Cmd.play msgPlay envResolveSession3 regSample
    (by decide)⟩

theorem firstTokenAux_append (t rest : List Char)
    (h : t.all (fun c => !(c == ' ')) = true) :
    firstTokenAux (t ++ ' ' :: rest) = t := by
  induction t with
  | nil => rfl
  | cons a as ih =>
    rw [List.all_cons, Bool.and_eq_true] at h
    rw [List.cons_append, firstTokenAux]
    have ha : (a == ' ') = false := by
      cases hb : (a == ' ') with
      | false => rfl
      | true => rw [hb] at h; exact absurd h.1 (by decide)
    rw [ha]
    simp [ih h.2]

/-- C2 counterexample: a guild message whose command token is separated by a
tab is discarded by the code (which splits at the first space character),
while the spec wording (split at the first whitespace) selects the play
handler. -/
theorem c2_whitespace_counterexample :
    dispatch (Event.messageCreate ⟨5, ⟨7, "u"⟩, some 1, "j/play\thttps://x"⟩) = none ∧
      dispatchFromSpec (Event.messageCreate ⟨5, ⟨7, "u"⟩, some 1, "j/play\thttps://x"⟩) =
        some Cmd.play := by
  decide

/-- C2 amended: the dispatcher discards non-message events, guildless
messages and messages without the `j/` marker; otherwise it splits the text
at the first space character (not any whitespace) and the leading token
selects exactly one of the four handlers, all other tokens being discarded
silently. -/
theorem c2_dispatch_amended (m : Message) (c : Cmd) (t rest : List Char)
    (ht : t.all (fun ch => !(ch == ' ')) = true) :
    dispatch Event.other = none ∧
      firstToken (String.mk (t ++ ' ' :: rest)) = String.mk t ∧
      (dispatch (Event.messageCreate m) = some c ↔
        m.guild_id.isSome = true ∧ strBegins m.content "j/" = true ∧
          tokenCmd (firstToken m.content) = some c) := by
  refine ⟨rfl, ?_, ?_⟩
  · unfold firstToken
    rw [firstTokenAux_append t rest ht]
  · cases hg : m.guild_id with
    | none => simp [dispatch, hg]
    | some g =>
      by_cases hb : strBegins m.content "j/" = true
      · simp [dispatch, hg, hb]
      · simp [dispatch, hg, hb]

/-- C2 witness: the amended dispatcher characterization evaluated on the
`j/play` sample message and a concrete space-separated token split. -/
theorem c2_dispatch_amended_witness :
    (['j', '/', 'x'].all (fun ch => !(ch == ' ')) = true) ∧
      (dispatch Event.other = none ∧
        firstToken (String.mk (['j', '/', 'x'] ++ ' ' :: ['y'])) =
          String.mk ['j', '/', 'x'] ∧
        (dispatch (Event.messageCreate msgPlay) = some Cmd.play ↔
          msgPlay.guild_id.isSome = true ∧ strBegins msgPlay.content "j/" = true ∧
            tokenCmd (firstToken msgPlay.content) = some Cmd.play)) :=
  ⟨by decide, c2_dispatch_amended msgPlay Cmd.play ['j', '/', 'x'] ['y'] (by decide)⟩

/-- C3 counterexample: when the voice-manager leave fails, the leave
handler returns through the question-mark operator before any reply, so no
"Left the channel" message is sent and the task fails — the claim's
unconditional success reply for leave is false. -/
theorem c3_leave_counterexample :
    (leave msgLeave envLeaveFail []).sent = [] ∧
      (leave msgLeave envLeaveFail []).outcome = Outcome.err "NoCall" :=
  ⟨rfl, rfl⟩

/-- C3 amended: stop replies "Stopped the track" unconditionally (the
`Call::stop` result is swallowed), but leave replies "Left the channel"
only when the voice-manager leave succeeds; a leave failure aborts the task
with no reply. -/
theorem c3_leave_stop_replies (m : Message) (eOk eErr eS : Env) (r1 r2 r3 : Registry)
    (g : GuildId) (le : String) (hg : m.guild_id = some g)
    (hok : eOk.leaveResult = Except.ok ()) (hs1 : eOk.send1Ok = true)
    (herr : eErr.leaveResult = Except.error le) (hs3 : eS.send1Ok = true) :
    (leave m eOk r1).sent = ["Left the channel"] ∧
      (leave m eOk r1).outcome = Outcome.ok ∧
      (leave m eErr r2).sent = [] ∧
      (leave m eErr r2).outcome = Outcome.err le ∧
      (stop m eS r3).sent = ["Stopped the track"] ∧
      (stop m eS r3).outcome = Outcome.ok := by
  refine ⟨?_, ?_, ?_, ?_, ?_, ?_⟩
  all_goals simp [leave, stop, hg, hok, hs1, herr, hs3]

/-- C3 witness: the amended leave/stop reply behavior evaluated on the
sample leave message with a succeeding and a failing voice-manager leave. -/
theorem c3_leave_stop_replies_witness :
    (leave msgLeave envBase []).sent = ["Left the channel"] ∧
      (leave msgLeave envBase []).outcome = Outcome.ok ∧
      (leave msgLeave envLeaveFail []).sent = [] ∧
      (leave msgLeave envLeaveFail []).outcome = Outcome.err "NoCall" ∧
      (stop msgLeave envBase []).sent = ["Stopped the track"] ∧
      (stop msgLeave envBase []).outcome = Outcome.ok :=
  c3_leave_stop_replies msgLeave envBase envLeaveFail envBase [] [] [] 3 "NoCall"
    rfl rfl rfl rfl rfl

/-- C4: when the resolver fails on the supplied url, play leaves the
registry untouched, makes no voice-manager call, and (the reply transport
succeeding) replies with a message carrying the failure cause and the task
ends normally. -/
theorem c4_play_resolve_failure (m : Message) (env : Env) (r : Registry)
    (reply : Message) (g : GuildId) (e : String)
    (h1 : env.send1Ok = true) (h2 : env.standby = Except.ok reply)
    (h3 : reply.guild_id = some g)
    (h4 : env.ytdl (trimStr reply.content) = Except.error e)
    (h5 : env.send2Ok = true) :
    (play m env r).registry = r ∧ (play m env r).voice = [] ∧
      (play m env r).sent = [playPrompt, "error " ++ e] ∧
      (play m env r).outcome = Outcome.ok := by
  simp [play, h1, h2, h3, h4, h5]

/-- C4 witness: a play invocation whose resolver fails with "bad url". -/
theorem c4_play_resolve_failure_witness :
    (play msgPlay envResolveFail regSample).registry = regSample ∧
      (play msgPlay envResolveFail regSample).voice = [] ∧
      (play msgPlay envResolveFail regSample).sent =
        [playPrompt, "error " ++ "bad url"] ∧
      (play msgPlay envResolveFail regSample).outcome = Outcome.ok :=
  c4_play_resolve_failure msgPlay envResolveFail regSample replyUrl 3 "bad url"
    rfl rfl rfl rfl rfl

/-- C5: when the url resolves but the guild has no voice session, the
"Playing" announcement is still sent, no playback is initiated, no error is
reported, and the registry is not mutated. -/
theorem c5_play_no_session (m : Message) (env : Env) (r : Registry)
    (reply : Message) (g : GuildId) (song : Song)
    (h1 : env.send1Ok = true) (h2 : env.standby = Except.ok reply)
    (h3 : reply.guild_id = some g)
    (h4 : env.ytdl (trimStr reply.content) = Except.ok song)
    (h5 : env.send2Ok = true) (h6 : env.hasCall g = false) :
    (play m env r).sent = [playPrompt, playingMsg song] ∧
      (play m env r).voice = [] ∧
      (play m env r).registry = r ∧
      (play m env r).outcome = Outcome.ok := by
  simp [play, h1, h2, h3, h4, h5, h6]

/-- C5 witness: a resolving play invocation in a guild with no session. -/
theorem c5_play_no_session_witness :
    (play msgPlay envResolveNoSession regSample).sent =
        [playPrompt, playingMsg songSample] ∧
      (play msgPlay envResolveNoSession regSample).voice = [] ∧
      (play msgPlay envResolveNoSession regSample).registry = regSample ∧
      (play msgPlay envResolveNoSession regSample).outcome = Outcome.ok :=
  c5_play_no_session msgPlay envResolveNoSession regSample replyUrl 3 songSample
    rfl rfl rfl rfl rfl rfl

/-- C6: whatever the session lookup and the `Call::stop` result, stop never
fails because of the stop itself: with the reply transport succeeding it
replies "Stopped the track", ends normally, and leaves the registry (hence
the guild's entry) untouched. -/
theorem c6_stop_always_succeeds (m : Message) (env : Env) (r : Registry)
    (g : GuildId) (hg : m.guild_id = some g) (hs : env.send1Ok = true) :
    (stop m env r).sent = ["Stopped the track"] ∧
      (stop m env r).outcome = Outcome.ok ∧
      (stop m env r).registry = r ∧
      lookupReg (stop m env r).registry g = lookupReg r g := by
  simp [stop, hg, hs]

/-- C6 witness: stop in a guild with no session and an empty registry. -/
theorem c6_stop_always_succeeds_witness :
    (stop msgStop envBase []).sent = ["Stopped the track"] ∧
      (stop msgStop envBase []).outcome = Outcome.ok ∧
      (stop msgStop envBase []).registry = [] ∧
      lookupReg (stop msgStop envBase []).registry 3 = lookupReg [] 3 :=
  c6_stop_always_succeeds msgStop envBase [] 3 rfl rfl

/-- C7: when the follow-up reply does not parse as an unsigned integer,
join fails the task through the question-mark operator: nothing beyond the
prompt is sent (in particular no "Joined" reply), the voice manager is
never invoked, and the registry is untouched. -/
theorem c7_join_parse_failure (m : Message) (env : Env) (r : Registry)
    (reply : Message) (h1 : env.send1Ok = true)
    (h2 : env.standby = Except.ok reply)
    (hp : parseU64 reply.content = none) :
    (join m env r).sent = [joinPrompt] ∧
      (join m env r).voice = [] ∧
      (join m env r).registry = r ∧
      (join m env r).outcome = Outcome.err "invalid digit found in string" := by
  simp [join, h1, h2, hp]

/-- C7 witness: join whose follow-up reply is the non-numeric "abc". -/
theorem c7_join_parse_failure_witness :
    (join msgJoin envReplyAbc regSample).sent = [joinPrompt] ∧
      (join msgJoin envReplyAbc regSample).voice = [] ∧
      (join msgJoin envReplyAbc regSample).registry = regSample ∧
      (join msgJoin envReplyAbc regSample).outcome =
        Outcome.err "invalid digit found in string" :=
  c7_join_parse_failure msgJoin envReplyAbc regSample replyAbc rfl rfl (by decide)

/-- C8 counterexample: the original `j/join` message is owned by guild 3,
so the dispatcher spawns the handler; yet with a numeric follow-up reply
owned by guild 2 the voice-manager join is invoked with guild 2, and with a
guildless numeric follow-up the owning-guild requirement inside join fails
with an error — the guild used is the reply's, not the original's, and the
requirement can fail. -/
theorem c8_reply_guild_counterexample :
    dispatch (Event.messageCreate msgJoin) = some Cmd.join ∧
      msgJoin.guild_id = some 3 ∧
      (join msgJoin envReplyGuild2 []).voice = [VoiceCall.joinCall 2 123] ∧
      (join msgJoin envReplyNoGuild []).outcome =
        Outcome.err "Can\x27t join a non-guild channel." ∧
      (join msgJoin envReplyNoGuild []).voice = [] := by
  decide

/-- C8 amended: the guild join passes to the voice manager is that of the
follow-up reply message, not of the original triggering message; its
presence is not guaranteed by the dispatcher's filter, and when the reply
has no owning guild the requirement fails and the command errors out
without calling the voice manager. -/
theorem c8_join_uses_reply_guild (m : Message) (envA envB : Env) (r1 r2 : Registry)
    (replyA replyB : Message) (ch1 ch2 g : Nat)
    (h1a : envA.send1Ok = true) (h2a : envA.standby = Except.ok replyA)
    (hpa : parseU64 replyA.content = some ch1) (hga : replyA.guild_id = some g)
    (h1b : envB.send1Ok = true) (h2b : envB.standby = Except.ok replyB)
    (hpb : parseU64 replyB.content = some ch2) (hgb : replyB.guild_id = none) :
    (join m envA r1).voice = [VoiceCall.joinCall g ch1] ∧
      (join m envB r2).outcome = Outcome.err "Can\x27t join a non-guild channel." ∧
      (join m envB r2).voice = [] := by
  refine ⟨?_, ?_, ?_⟩
  · by_cases hs2 : envA.send2Ok = true
    · simp [join, h1a, h2a, hpa, hga, hs2]
    · simp [join, h1a, h2a, hpa, hga, hs2]
  · simp [join, h1b, h2b, hpb, hgb]
  · simp [join, h1b, h2b, hpb, hgb]

/-- C8 witness: the amended statement evaluated with a guild-2 follow-up
and a guildless follow-up to the guild-3 join message. -/
theorem c8_join_uses_reply_guild_witness :
    (join msgJoin envReplyGuild2 regSample).voice = [VoiceCall.joinCall 2 123] ∧
      (join msgJoin envReplyNoGuild []).outcome =
        Outcome.err "Can\x27t join a non-guild channel." ∧
      (join msgJoin envReplyNoGuild []).voice = [] :=
  c8_join_uses_reply_guild msgJoin envReplyGuild2 envReplyNoGuild regSample []
    replyNumGuild2 replyNumNoGuild 123 123 2 rfl rfl (by decide) rfl rfl rfl
    (by decide) rfl

/-- C9: whenever the dispatcher actually spawns a handler for a
message-creation event, that message has an owning guild, so the
unconditional guild unwrap at the top of leave and stop never reaches its
panic branch, in any environment and registry. -/
theorem c9_leave_stop_never_panic (m : Message) (c : Cmd) (e1 e2 : Env)
    (r1 r2 : Registry) (h : dispatch (Event.messageCreate m) = some c) :
    ((leave m e1 r1).outcome).isPanicked = false ∧
      ((stop m e2 r2).outcome).isPanicked = false := by
  cases hg : m.guild_id with
  | none => simp [dispatch, hg] at h
  | some g =>
    constructor
    · cases hl : e1.leaveResult with
      | error e => simp [leave, hg, hl, Outcome.isPanicked]
      | ok u =>
        by_cases hs : e1.send1Ok = true <;>
          simp [leave, hg, hl, hs, Outcome.isPanicked]
    · by_cases hs : e2.send1Ok = true <;>
        simp [stop, hg, hs, Outcome.isPanicked]

/-- C9 witness: the dispatched `j/leave` sample message panics in neither
handler. -/
theorem c9_leave_stop_never_panic_witness :
    ((leave msgLeave envBase []).outcome).isPanicked = false ∧
      ((stop msgLeave envLeaveFail []).outcome).isPanicked = false :=
  c9_leave_stop_never_panic msgLeave Cmd.leave envBase envLeaveFail [] [] (by decide)

/-- C10: for every awaited follow-up reply with no owning guild, play hits
the unguarded unwrap and panics, while join never panics there — and when
the guildless reply parses as a channel id, join instead errors with a
non-guild-channel message. -/
theorem c10_guildless_reply_asymmetry (m : Message) (envA envB : Env)
    (r1 r2 : Registry) (replyA replyB : Message) (ch : Nat)
    (h1a : envA.send1Ok = true) (h2a : envA.standby = Except.ok replyA)
    (h3a : replyA.guild_id = none)
    (h1b : envB.send1Ok = true) (h2b : envB.standby = Except.ok replyB)
    (h3b : replyB.guild_id = none) (hpb : parseU64 replyB.content = some ch) :
    (play m envA r1).outcome = Outcome.panicked "called Option::unwrap on a None value" ∧
      ((join m envA r1).outcome).isPanicked = false ∧
      (join m envB r2).outcome = Outcome.err "Can\x27t join a non-guild channel." := by
  refine ⟨?_, ?_, ?_⟩
  · simp [play, h1a, h2a, h3a]
  · cases hp : parseU64 replyA.content with
    | none => simp [join, h1a, h2a, hp, Outcome.isPanicked]
    | some ch2 => simp [join, h1a, h2a, hp, h3a, Outcome.isPanicked]
  · simp [join, h1b, h2b, hpb, h3b]

/-- C10 witness: a guildless numeric follow-up makes play panic while join
errors out. -/
theorem c10_guildless_reply_asymmetry_witness :
    (play msgPlay envReplyNoGuild []).outcome =
        Outcome.panicked "called Option::unwrap on a None value" ∧
      ((join msgPlay envReplyNoGuild []).outcome).isPanicked = false ∧
      (join msgPlay envReplyNoGuild []).outcome =
        Outcome.err "Can\x27t join a non-guild channel." :=
  c10_guildless_reply_asymmetry msgPlay envReplyNoGuild envReplyNoGuild [] []
    replyNumNoGuild replyNumNoGuild 123 rfl rfl rfl rfl rfl rfl (by decide)

end MusicM8
